import Mathlib

/-!
Shallow embedding of jstatmon (src/jstatmon/client.py) and proofs about it.

The embedding models the per-process statistics collection pipeline of
JStatmonClient: executable location, PID enumeration, process inspection,
privilege demotion ordering, metric-schema lookup and the statistics
parser and mapper, together with the run orchestrator.  External effects
(file system contents, subprocess standard output, the passwd database)
are parameters of an environment record; Python exceptions are modelled
with Except.
-/

namespace Jstatmon

/-- Python exceptions that the modelled code can raise. -/
inductive PyError where
  | keyError (key : String)
  | indexError
  | typeError
deriving DecidableEq, Repr

/-- Characters stripped by Python str.strip() with no arguments. -/
def isPyWhitespace (c : Char) : Bool :=
  c == ' ' || c == '\t' || c == '\n' || c == '\r' || c == Char.ofNat 11 || c == Char.ofNat 12

/-- Python str.strip(): remove leading and trailing whitespace. -/
def pyStrip (s : String) : String :=
  String.mk (((s.toList.dropWhile isPyWhitespace).reverse.dropWhile isPyWhitespace).reverse)

/-- Python str.strip(quote): remove leading and trailing double-quote characters,
as done to each PATH entry in JStatmonClient._which. -/
def stripQuotes (s : String) : String :=
  String.mk (((s.toList.dropWhile (fun c => c == '"')).reverse.dropWhile
    (fun c => c == '"')).reverse)

/-- Split a character list at every character satisfying p, keeping empty groups,
mirroring Python str.split(sep): the result always has one group per separator
plus one, and splitting the empty list gives one empty group. -/
def pySplitChars (p : Char → Bool) : List Char → List (List Char)
  | [] => [[]]
  | c :: rest =>
    let r := pySplitChars p rest
    if p c then [] :: r
    else
      match r with
      | [] => [[c]]
      | g :: gs => (c :: g) :: gs

/-- Python str.split(sep) for a one-character separator: keeps empty pieces,
and the empty string splits to a single empty piece. -/
def pySplitOn (sep : Char) (s : String) : List String :=
  (pySplitChars (fun c => c == sep) s.toList).map String.mk

/-- Python str.split() with no arguments: split on whitespace runs, dropping
empty pieces. -/
def pySplitWs (s : String) : List String :=
  ((pySplitChars isPyWhitespace s.toList).filter (fun g => g ≠ [])).map String.mk

/-- File system facts consulted by the locator: os.path.isfile, os.access
with X_OK, and the PATH environment variable. -/
structure FS where
  isfile : String → Bool
  access : String → Bool
  pathVar : String

/-- JStatmonClient._is_executable: a path is executable when it is a file and
os.access grants execute permission. -/
def is_executable (fs : FS) (fpath : String) : Bool :=
  fs.isfile fpath && fs.access fpath

/-- os.path.split: split a path at the final slash; the head keeps no trailing
slashes unless it consists only of slashes. -/
def ospathSplit (p : String) : String × String :=
  let cs := p.toList
  match cs.reverse.findIdx? (fun c => c == '/') with
  | none => ("", p)
  | some j =>
    let i := cs.length - j
    let head := cs.take i
    let tail := cs.drop i
    let head2 :=
      if head.all (fun c => c == '/') then head
      else (head.reverse.dropWhile (fun c => c == '/')).reverse
    (String.mk head2, String.mk tail)

/-- True when the string starts with a slash (os.path.join absolute check). -/
def startsWithSlash (s : String) : Bool :=
  match s.toList with
  | [] => false
  | c :: _ => c == '/'

/-- True when the string ends with a slash. -/
def endsWithSlash (s : String) : Bool :=
  match s.toList.reverse with
  | [] => false
  | c :: _ => c == '/'

/-- os.path.join for two components as used by the locator. -/
def ospathJoin (path b : String) : String :=
  if startsWithSlash b then b
  else if path = "" || endsWithSlash path then path ++ b
  else path ++ "/" ++ b

/-- Search loop of JStatmonClient._which: scan PATH entries in order, strip
double quotes from each, join with the program name, and return the first
candidate that exists and is executable. -/
def which_search (fs : FS) (program : String) : List String → Option String
  | [] => none
  | path :: rest =>
    let executable := ospathJoin (stripQuotes path) program
    if is_executable fs executable then some executable
    else which_search fs program rest

/-- JStatmonClient._which: if the program name contains a path separator the
literal path alone is checked; otherwise the PATH directories are scanned in
order. -/
def which (fs : FS) (program : String) : Option String :=
  if (ospathSplit program).1 ≠ "" then
    (if is_executable fs program then some program else none)
  else
    which_search fs program (pySplitOn ':' fs.pathVar)

/-- External world of one run: file system facts, the environment label, the
captured standard output of each invoked tool, and the passwd database used
by pwd.getpwnam (uid and gid for a username, or none when unresolvable). -/
structure Env where
  fs : FS
  environment : String
  pgrepOut : String
  psCommandOut : String → String
  psUserOut : String → String
  jstatOut : String → String → String
  getpwnam : String → Option (Nat × Nat)

/-- JStatmonClient._get_java_pids: when pgrep is locatable, return the stripped
standard output split on newlines; otherwise log an error and return None. -/
def get_java_pids (env : Env) : Option (List String) :=
  match which env.fs "pgrep" with
  | some _ => some (pySplitOn '\n' (pyStrip env.pgrepOut))
  | none => none

/-- JStatmonClient._pid_to_command: when ps is locatable, return the tuple of
pid, stripped command output and stripped user output; otherwise None. -/
def pid_to_command (env : Env) (pid : String) : Option (String × String × String) :=
  match which env.fs "ps" with
  | some _ => some (pid, pyStrip (env.psCommandOut pid), pyStrip (env.psUserOut pid))
  | none => none

/-- One system call requested by the privilege-drop closure. -/
inductive SysCall where
  | setgid (gid : Nat)
  | setuid (uid : Nat)
deriving DecidableEq, Repr

/-- JStatmonClient._demote: the returned pre-exec closure performs setgid with
the group id and then setuid with the user id, in that order. -/
def demote (user_uid user_gid : Nat) : List SysCall :=
  [SysCall.setgid user_gid, SysCall.setuid user_uid]

/-- Metric schema for the -gc category (metric_maps_gc). -/
def metric_maps_gc : List (String × String) :=
  [("S0C", "current_survivor_space_0_capacity_kB"),
   ("S1C", "current_survivor_space_1_capacity_kB"),
   ("S0U", "survivor_space_0_utilization_kB"),
   ("S1U", "survivor_space_1_utilization_kB"),
   ("EC", "current_eden_space_capacity_kB"),
   ("EU", "eden_space_utilization_kB"),
   ("OC", "current_old_space_capacity_kB"),
   ("OU", "old_space_utilization_kB"),
   ("MC", "metaspace_capacity_kB"),
   ("MU", "metaspace_utilization_kB"),
   ("CCSC", "compressed_class_space_capacity_kB"),
   ("CCSU", "compressed_class_space_utilization_kB"),
   ("PC", "current_permanent_space_capacity_kB"),
   ("PU", "permanent_space_utilization_kB"),
   ("YGC", "number_of_young_generation_GC_events"),
   ("YGCT", "young_generation_garbage_collection_time"),
   ("FGC", "number_of_stop_the_world_events"),
   ("FGCT", "full_garbage_collection_time"),
   ("GCT", "total_garbage_collection_time")]

/-- Metric schema for the -gccapacity category (metric_maps_gccapacity). -/
def metric_maps_gccapacity : List (String × String) :=
  [("NGCMN", "minimum_new_generation_capacity_kB"),
   ("NGCMX", "maximum_new_generation_capacity_kB"),
   ("NGC", "current_new_generation_capacity_kB"),
   ("S0C", "current_survivor_space_0_capacity_kB"),
   ("S1C", "current_survivor_space_1_capacity_kB"),
   ("EC", "current_eden_space_capacity_kB"),
   ("OGCMN", "minimum_old_generation_capacity_kB"),
   ("OGCMX", "maximum_old_generation_capacity_kB"),
   ("OGC", "current_old_generation_capacity_kB"),
   ("OC", "current_old_space_capacity_kB"),
   ("MCMN", "minimum_metaspace_capacity_kB"),
   ("MCMX", "maximum_metaspace_capacity_kB"),
   ("MC", "metaspace_capacity_kB"),
   ("CCSMN", "compressed_class_space_minimum_capacity_kB"),
   ("CCSMX", "compressed_class_space_maximum_capacity_kB"),
   ("CCSC", "compressed_class_space_capacity_kB"),
   ("YGC", "number_of_young_generation_GC_events"),
   ("FGC", "number_of_stop_the_world_events")]

/-- Metric schema for the -gccause category (metric_maps_gccause). -/
def metric_maps_gccause : List (String × String) :=
  [("LGCC", "cause_of_last_garbage_collection"),
   ("GCC", "cause_of_current_garbage_collection")]

/-- Metric schema for the -gcnew category (metric_maps_gcnew). -/
def metric_maps_gcnew : List (String × String) :=
  [("S0C", "current_survivor_space_0_capacity_kB"),
   ("S1C", "current_survivor_space_1_capacity_kB"),
   ("S0U", "survivor_space_0_utilization_kB"),
   ("S1U", "survivor_space_1_utilization_kB"),
   ("TT", "tenuring_threshold"),
   ("MTT", "maximum_tenuring_threshold"),
   ("DSS", "desired_survivor_size_kB"),
   ("EC", "current_eden_space_capacity_kB"),
   ("EU", "eden_space_utilization_kB"),
   ("YGC", "number_of_young_generation_GC_events"),
   ("YGCT", "young_generation_garbage_collection_time")]

/-- Metric schema for the -compiler category (metric_maps_compiler). -/
def metric_maps_compiler : List (String × String) :=
  [("Compiled", "number_of_compilation_tasks_performed"),
   ("Failed", "number_of_compilation_tasks_failed"),
   ("Invalid", "number_of_compilation_tasks_that_were_invalidated"),
   ("Time", "time_spent_performing_compilation_tasks"),
   ("FailedType", "compile_type_of_the_last_failed_compilation"),
   ("FailedMethod", "class_name_and_method_of_the_last_failed_compilation")]

/-- Metric schema for the -class category (metric_maps_class); the duplicated
Bytes header is keyed by the synthetic column names. -/
def metric_maps_class : List (String × String) :=
  [("Loaded", "number_of_classes_loaded"),
   ("Bytes_column2", "number_of_kBs_loaded"),
   ("Unloaded", "number_of_classes_unloaded"),
   ("Bytes_column4", "number_of_kBs_unloaded"),
   ("Time", "time_spent_performing_class_loading_and_unloading_operations")]

/-- The if/elif dispatch in JStatmonClient._jstat_details selecting the metric
map for an option; an unknown option leaves metric_maps as None, which would
later raise a TypeError at the membership test. -/
def select_metric_maps (option : String) : Option (List (String × String)) :=
  if option = "-gc" then some metric_maps_gc
  else if option = "-gccapacity" then some metric_maps_gccapacity
  else if option = "-gcnew" then some metric_maps_gcnew
  else if option = "-compiler" then some metric_maps_compiler
  else if option = "-gccause" then some metric_maps_gccause
  else if option = "-class" then some metric_maps_class
  else none

/-- The fixed category list iterated by JStatmonClient._jstat_details. -/
def jstat_options : List String :=
  ["-gc", "-gccapacity", "-gcnew", "-compiler", "-class"]

/-- The six fixed context tokens opening every metrics sequence. -/
def context_tokens (environment option user pid command : String) : List String :=
  ["application=jstatmon", "environment=" ++ environment, "option=" ++ option,
   "user=" ++ user, "pid=" ++ pid, "command=" ++ command]

/-- One metric token: the option minus its leading dash, an underscore, the
mapped long name, an equals sign and the positionally aligned value. -/
def metric_token (option long value : String) : String :=
  option.drop 1 ++ "_" ++ long ++ "=" ++ value

/-- Python list item assignment: in range replaces the element, out of range
raises IndexError. -/
def list_setitem (l : List String) (i : Nat) (v : String) : Except PyError (List String) :=
  if i < l.length then Except.ok (l.set i v) else Except.error PyError.indexError

/-- The -class special case in JStatmonClient._jstat_details: rewrite header
positions 1 and 3 to the synthetic Bytes column names, only for -class. -/
def class_rewrite (option : String) (titles : List String) : Except PyError (List String) :=
  if option = "-class" then
    match list_setitem titles 1 "Bytes_column2" with
    | Except.error e => Except.error e
    | Except.ok t => list_setitem t 3 "Bytes_column4"
  else Except.ok titles

/-- The title loop of JStatmonClient._jstat_details: walk the header tokens
with their positions; a mapped title emits one metric token built from the
value at the same position (IndexError when the values row is too short); an
unmapped title emits nothing and is recorded as a warning. -/
def map_titles (mm : List (String × String)) (option : String) (values_all : List String) :
    List String → Nat → Except PyError (List String × List String)
  | [], _ => Except.ok ([], [])
  | title :: rest, position =>
    match mm.lookup title with
    | some long =>
      match values_all.get? position with
      | none => Except.error PyError.indexError
      | some value =>
        match map_titles mm option values_all rest (position + 1) with
        | Except.error e => Except.error e
        | Except.ok (toks, warns) => Except.ok (metric_token option long value :: toks, warns)
    | none =>
      match map_titles mm option values_all rest (position + 1) with
      | Except.error e => Except.error e
      | Except.ok (toks, warns) => Except.ok (toks, title :: warns)

/-- The parsing tail of one option in JStatmonClient._jstat_details: strip the
captured standard output, take line 1 as the values row (IndexError when there
is no second line), line 0 as the header row, apply the -class rewrite, then
map the titles; on success prepend the context tokens. -/
def parse_jstat_output (mm : List (String × String)) (option : String)
    (ctx : List String) (stdout : String) : Except PyError (List String × List String) :=
  let lines := pySplitOn '\n' (pyStrip stdout)
  match lines.get? 1 with
  | none => Except.error PyError.indexError
  | some line1 =>
    let values_all := pySplitWs line1
    let titles0 := pySplitWs (lines.headD "")
    match class_rewrite option titles0 with
    | Except.error e => Except.error e
    | Except.ok titles =>
      match map_titles mm option values_all titles 0 with
      | Except.error e => Except.error e
      | Except.ok (toks, warns) => Except.ok (ctx ++ toks, warns)

/-- One iteration of the option loop in JStatmonClient._jstat_details: select
the metric map, resolve the owning user with getpwnam (KeyError when the user
is unknown), run jstat and parse its output. -/
def jstat_one_option (env : Env) (pid command user option : String) :
    Except PyError (List String) :=
  match select_metric_maps option with
  | none => Except.error PyError.typeError
  | some mm =>
    match env.getpwnam user with
    | none => Except.error (PyError.keyError user)
    | some _record =>
      match parse_jstat_output mm option
          (context_tokens env.environment option user pid command)
          (env.jstatOut option pid) with
      | Except.error e => Except.error e
      | Except.ok (metrics, _warns) => Except.ok metrics

/-- The option loop of JStatmonClient._jstat_details: the categories are
processed in order and the first raised exception propagates, discarding the
accumulated stats list. -/
def jstat_collect (env : Env) (pid command user : String) :
    List String → Except PyError (List (List String))
  | [] => Except.ok []
  | option :: rest =>
    match jstat_one_option env pid command user option with
    | Except.error e => Except.error e
    | Except.ok metrics =>
      match jstat_collect env pid command user rest with
      | Except.error e => Except.error e
      | Except.ok stats => Except.ok (metrics :: stats)

/-- JStatmonClient._jstat_details: when jstat is locatable return the stats of
all five options (exceptions propagate); otherwise log an error and return
None. -/
def jstat_details (env : Env) (pcu : String × String × String) :
    Except PyError (Option (List (List String))) :=
  match which env.fs "jstat" with
  | some _ =>
    match jstat_collect env pcu.1 pcu.2.1 pcu.2.2 jstat_options with
    | Except.error e => Except.error e
    | Except.ok stats => Except.ok (some stats)
  | none => Except.ok none

/-- The emission loop of JStatmonClient.run: for each inspected process call
_jstat_details and emit each category's space-joined metric line.  Iterating
over the None returned for a missing jstat raises TypeError; a raised
exception aborts the loop with the lines emitted so far left standing. -/
def run_emit (env : Env) : List (String × String × String) → List String →
    List String × Option PyError
  | [], acc => (acc, none)
  | pc :: rest, acc =>
    match jstat_details env pc with
    | Except.error e => (acc, some e)
    | Except.ok none => (acc, some PyError.typeError)
    | Except.ok (some stats) =>
      run_emit env rest (acc ++ stats.map (fun metrics => String.intercalate " " metrics))

/-- JStatmonClient.run: enumerate PIDs; when truthy, inspect each PID (a None
inspection result is skipped with a warning) and process the survivors,
emitting one line per category per process.  The result is the emitted lines
together with the uncaught exception, if any, that ended the run. -/
def run (env : Env) : List String × Option PyError :=
  match get_java_pids env with
  | none => ([], none)
  | some pids =>
    if pids.isEmpty then ([], none)
    else run_emit env (pids.filterMap (fun pid => pid_to_command env pid)) []

/-- The gc header row named by the specification. -/
def gc_header_row : List String :=
  ["S0C", "S1C", "S0U", "S1U", "EC", "EU", "OC", "OU", "MC", "MU",
   "CCSC", "CCSU", "PC", "PU", "YGC", "YGCT", "FGC", "FGCT", "GCT"]

/-- File system with pgrep, ps and jstat all present under /bin. -/
def fsAllBins : FS :=
  { isfile := fun s => s == "/bin/pgrep" || s == "/bin/ps" || s == "/bin/jstat"
    access := fun s => s == "/bin/pgrep" || s == "/bin/ps" || s == "/bin/jstat"
    pathVar := "/bin" }

/-- File system with pgrep and ps present under /bin but no jstat anywhere. -/
def fsNoJstat : FS :=
  { isfile := fun s => s == "/bin/pgrep" || s == "/bin/ps"
    access := fun s => s == "/bin/pgrep" || s == "/bin/ps"
    pathVar := "/bin" }

/-- File system for the locator witness: prog exists executably in both /a and
/b, with PATH listing /a first. -/
def fsW : FS :=
  { isfile := fun s => s == "/a/prog" || s == "/b/prog"
    access := fun s => s == "/a/prog" || s == "/b/prog"
    pathVar := "/a:/b" }

/-- World with one java PID whose owner resolves, but no jstat executable. -/
def envNoJstat : Env :=
  { fs := fsNoJstat
    environment := "prod"
    pgrepOut := "123"
    psCommandOut := fun _ => "java -jar app.jar"
    psUserOut := fun _ => "app"
    jstatOut := fun _ _ => ""
    getpwnam := fun u => if u == "app" then some (1000, 1000) else none }

/-- World with one java PID whose owning username ghost is not in passwd. -/
def envGhost : Env :=
  { fs := fsAllBins
    environment := "prod"
    pgrepOut := "123"
    psCommandOut := fun _ => "java"
    psUserOut := fun _ => "ghost"
    jstatOut := fun _ _ => "A B\n1 2"
    getpwnam := fun _ => none }

/-- World where PID 123 evaporated: ps produces empty output for both the
command and the user query, and the empty username is not in passwd. -/
def envEvap : Env :=
  { fs := fsAllBins
    environment := "prod"
    pgrepOut := "123"
    psCommandOut := fun _ => ""
    psUserOut := fun _ => ""
    jstatOut := fun _ _ => "A B\n1 2"
    getpwnam := fun u => if u == "app" then some (1000, 1000) else none }

/-- World where pgrep produces entirely empty output. -/
def envEmptyOut : Env :=
  { fs := fsAllBins
    environment := "prod"
    pgrepOut := ""
    psCommandOut := fun _ => ""
    psUserOut := fun _ => ""
    jstatOut := fun _ _ => ""
    getpwnam := fun _ => none }

/-- World where pgrep produces two PIDs separated by an empty line. -/
def envPids : Env :=
  { fs := fsAllBins
    environment := "prod"
    pgrepOut := "12\n\n34"
    psCommandOut := fun _ => ""
    psUserOut := fun _ => ""
    jstatOut := fun _ _ => ""
    getpwnam := fun _ => none }

/-- Helper: with jstat locatable and the user unresolvable, the first option
of the loop raises the getpwnam KeyError. -/
lemma jstat_one_option_keyerror (env : Env) (pid command user option : String)
    (hsel : (select_metric_maps option).isSome = true)
    (hu : env.getpwnam user = none) :
    jstat_one_option env pid command user option = Except.error (PyError.keyError user) := by
  cases hs : select_metric_maps option with
  | none => rw [hs] at hsel; simp at hsel
  | some mm => simp [jstat_one_option, hs, hu]

/-- Helper: _jstat_details raises the getpwnam KeyError when jstat is
locatable but the owning user is not in passwd. -/
lemma jstat_details_keyerror (env : Env) (pid command user : String)
    (hj : (which env.fs "jstat").isSome = true)
    (hu : env.getpwnam user = none) :
    jstat_details env (pid, command, user) = Except.error (PyError.keyError user) := by
  cases hw : which env.fs "jstat" with
  | none => rw [hw] at hj; simp at hj
  | some x =>
    have h1 : jstat_one_option env pid command user "-gc" =
        Except.error (PyError.keyError user) :=
      jstat_one_option_keyerror env pid command user "-gc" rfl hu
    simp [jstat_details, hw, jstat_options, jstat_collect, h1]

/-- Claim C1 (code bug evidence): in a world where pgrep and ps are locatable
but jstat is not, _jstat_details logs an error and returns None for the
inspected process, and run then raises a TypeError by iterating over that
None: the failure is not isolated to the process and the run crashes. -/
theorem run_crash_when_jstat_missing :
    jstat_details envNoJstat ("123", "java -jar app.jar", "app") = Except.ok none ∧
    run envNoJstat = ([], some PyError.typeError) :=
  ⟨rfl, rfl⟩

/-- Claim C2 (counterexample): with all three tools locatable and one java
process whose owning user ghost is not in passwd, the whole run aborts with
the uncaught getpwnam KeyError, so a user-resolution failure is not confined
to that process. -/
theorem user_resolution_aborts_whole_run_cex :
    run envGhost = ([], some (PyError.keyError "ghost")) :=
  rfl

/-- Claim C2 (amended): when the owning username of a process cannot be
resolved, statistics collection aborts for that process via an uncaught
KeyError, and that exception propagates: the remaining processes are not
collected and the whole run aborts, keeping only the lines emitted before. -/
theorem user_resolution_failure_propagates (env : Env) (pid command user : String)
    (hj : (which env.fs "jstat").isSome = true)
    (hu : env.getpwnam user = none) :
    jstat_details env (pid, command, user) = Except.error (PyError.keyError user) ∧
    ∀ (acc : List String) (rest : List (String × String × String)),
      run_emit env ((pid, command, user) :: rest) acc = (acc, some (PyError.keyError user)) := by
  have hd := jstat_details_keyerror env pid command user hj hu
  exact ⟨hd, fun acc rest => by simp [run_emit, hd]⟩

/-- Witness for the amended C2 statement at a concrete world. -/
theorem user_resolution_failure_propagates_witness :
    jstat_details envGhost ("123", "java", "ghost") = Except.error (PyError.keyError "ghost") ∧
    run_emit envGhost [("123", "java", "ghost")] [] = ([], some (PyError.keyError "ghost")) := by
  have h := user_resolution_failure_propagates envGhost "123" "java" "ghost" (by decide) rfl
  exact ⟨h.1, h.2 [] []⟩

/-- Claim C3 (counterexample): an evaporated PID yields the tuple of pid and
empty command and user fields, which is truthy and therefore not filtered out
by run; it reaches the statistics stage, where resolving the empty username
raises an uncaught KeyError and the run crashes instead of tolerating it. -/
theorem evaporated_process_not_filtered_cex :
    pid_to_command envEvap "123" = some ("123", "", "") ∧
    run envEvap = ([], some (PyError.keyError "")) :=
  ⟨rfl, rfl⟩

/-- Claim C3 (amended): a PID that evaporated before inspection yields a
ProcessRef with empty command and user fields rather than failing, but that
ProcessRef is not filtered out (only a missing process-status utility is
skipped with a warning); it reaches the statistics stage, where resolving the
empty username raises an uncaught KeyError that aborts the run. -/
theorem evaporated_process_reaches_statistics_stage (env : Env) (pid : String)
    (hps : (which env.fs "ps").isSome = true)
    (hcmd : pyStrip (env.psCommandOut pid) = "")
    (husr : pyStrip (env.psUserOut pid) = "")
    (hj : (which env.fs "jstat").isSome = true)
    (hpw : env.getpwnam "" = none) :
    pid_to_command env pid = some (pid, "", "") ∧
    jstat_details env (pid, "", "") = Except.error (PyError.keyError "") := by
  constructor
  · cases hw : which env.fs "ps" with
    | none => rw [hw] at hps; simp at hps
    | some x => simp [pid_to_command, hw, hcmd, husr]
  · exact jstat_details_keyerror env pid "" "" hj hpw

/-- Witness for the amended C3 statement at a concrete world. -/
theorem evaporated_process_reaches_statistics_stage_witness :
    pid_to_command envEvap "123" = some ("123", "", "") ∧
    jstat_details envEvap ("123", "", "") = Except.error (PyError.keyError "") :=
  evaporated_process_reaches_statistics_stage envEvap "123" (by decide) rfl rfl (by decide) rfl

/-- Claim C8: the pre-execution demotion closure requests the group-id change
strictly before the user-id change, never in the reverse order. -/
theorem demote_orders_setgid_before_setuid (user_uid user_gid : Nat) :
    demote user_uid user_gid = [SysCall.setgid user_gid, SysCall.setuid user_uid] ∧
    (demote user_uid user_gid).get? 0 = some (SysCall.setgid user_gid) ∧
    (demote user_uid user_gid).get? 1 = some (SysCall.setuid user_uid) :=
  ⟨rfl, rfl, rfl⟩

/-- Claim C9 (counterexample): entirely empty pgrep output yields one
empty-string PID token, not zero tokens. -/
theorem get_java_pids_empty_output_cex :
    get_java_pids envEmptyOut = some [""] ∧ ([""] : List String) ≠ [] :=
  ⟨rfl, by decide⟩

/-- Claim C9 (amended): the enumerator strips surrounding whitespace from the
captured output and splits it on newlines, with every line, empty interior
lines included, yielding exactly one token; in particular entirely empty
output yields a single empty-string token. -/
theorem get_java_pids_amended_split (env : Env)
    (h : (which env.fs "pgrep").isSome = true) :
    get_java_pids env = some (pySplitOn '\n' (pyStrip env.pgrepOut)) := by
  cases hw : which env.fs "pgrep" with
  | none => rw [hw] at h; simp at h
  | some x => simp [get_java_pids, hw]

/-- Witness for the amended C9 statement: output with an empty interior line
yields a token for every line including the empty one. -/
theorem get_java_pids_amended_split_witness :
    get_java_pids envPids = some ["12", "", "34"] :=
  (get_java_pids_amended_split envPids (by decide)).trans (by rfl)

/-- Claim C4: for the gc category, the nineteen-token header row paired with a
nineteen-token values row maps to exactly the nineteen metric tokens whose
keys are gc_ followed by the mapped long name and whose values are the
positionally aligned input tokens, with no warnings; prepending the six fixed
context tokens in their fixed order gives twenty-five tokens in total. -/
theorem gc_mapper_emits_25_tokens
    (environment user pid command
     v0 v1 v2 v3 v4 v5 v6 v7 v8 v9 v10 v11 v12 v13 v14 v15 v16 v17 v18 : String) :
    map_titles metric_maps_gc "-gc"
      [v0, v1, v2, v3, v4, v5, v6, v7, v8, v9, v10, v11, v12, v13, v14, v15, v16, v17, v18]
      gc_header_row 0 =
      Except.ok
        (["gc_current_survivor_space_0_capacity_kB=" ++ v0,
          "gc_current_survivor_space_1_capacity_kB=" ++ v1,
          "gc_survivor_space_0_utilization_kB=" ++ v2,
          "gc_survivor_space_1_utilization_kB=" ++ v3,
          "gc_current_eden_space_capacity_kB=" ++ v4,
          "gc_eden_space_utilization_kB=" ++ v5,
          "gc_current_old_space_capacity_kB=" ++ v6,
          "gc_old_space_utilization_kB=" ++ v7,
          "gc_metaspace_capacity_kB=" ++ v8,
          "gc_metaspace_utilization_kB=" ++ v9,
          "gc_compressed_class_space_capacity_kB=" ++ v10,
          "gc_compressed_class_space_utilization_kB=" ++ v11,
          "gc_current_permanent_space_capacity_kB=" ++ v12,
          "gc_permanent_space_utilization_kB=" ++ v13,
          "gc_number_of_young_generation_GC_events=" ++ v14,
          "gc_young_generation_garbage_collection_time=" ++ v15,
          "gc_number_of_stop_the_world_events=" ++ v16,
          "gc_full_garbage_collection_time=" ++ v17,
          "gc_total_garbage_collection_time=" ++ v18], []) ∧
    context_tokens environment "-gc" user pid command =
      ["application=jstatmon", "environment=" ++ environment, "option=-gc",
       "user=" ++ user, "pid=" ++ pid, "command=" ++ command] ∧
    (context_tokens environment "-gc" user pid command ++
      ["gc_current_survivor_space_0_capacity_kB=" ++ v0,
       "gc_current_survivor_space_1_capacity_kB=" ++ v1,
       "gc_survivor_space_0_utilization_kB=" ++ v2,
       "gc_survivor_space_1_utilization_kB=" ++ v3,
       "gc_current_eden_space_capacity_kB=" ++ v4,
       "gc_eden_space_utilization_kB=" ++ v5,
       "gc_current_old_space_capacity_kB=" ++ v6,
       "gc_old_space_utilization_kB=" ++ v7,
       "gc_metaspace_capacity_kB=" ++ v8,
       "gc_metaspace_utilization_kB=" ++ v9,
       "gc_compressed_class_space_capacity_kB=" ++ v10,
       "gc_compressed_class_space_utilization_kB=" ++ v11,
       "gc_current_permanent_space_capacity_kB=" ++ v12,
       "gc_permanent_space_utilization_kB=" ++ v13,
       "gc_number_of_young_generation_GC_events=" ++ v14,
       "gc_young_generation_garbage_collection_time=" ++ v15,
       "gc_number_of_stop_the_world_events=" ++ v16,
       "gc_full_garbage_collection_time=" ++ v17,
       "gc_total_garbage_collection_time=" ++ v18]).length = 25 :=
  ⟨rfl, rfl, rfl⟩

/-- Helper: the PATH scan returns the candidate of the first directory whose
joined candidate is executable, regardless of later directories. -/
lemma which_search_first (fs : FS) (program d : String) (ds₂ : List String) :
    ∀ ds₁ : List String,
      (∀ dd ∈ ds₁, is_executable fs (ospathJoin (stripQuotes dd) program) = false) →
      is_executable fs (ospathJoin (stripQuotes d) program) = true →
      which_search fs program (ds₁ ++ d :: ds₂) = some (ospathJoin (stripQuotes d) program) := by
  intro ds₁
  induction ds₁ with
  | nil =>
    intro _ hd
    simp [which_search, hd]
  | cons x xs ih =>
    intro h hd
    have hx : is_executable fs (ospathJoin (stripQuotes x) program) = false :=
      h x (by simp)
    rw [List.cons_append]
    simp only [which_search, hx]
    simpa using ih (fun y hy => h y (by simp [hy])) hd

/-- Helper: the PATH scan finds nothing when no directory holds an executable
candidate. -/
lemma which_search_none (fs : FS) (program : String) :
    ∀ ds : List String,
      (∀ dd ∈ ds, is_executable fs (ospathJoin (stripQuotes dd) program) = false) →
      which_search fs program ds = none := by
  intro ds
  induction ds with
  | nil => intro _; rfl
  | cons x xs ih =>
    intro h
    have hx : is_executable fs (ospathJoin (stripQuotes x) program) = false :=
      h x (by simp)
    simp only [which_search, hx]
    simpa using ih fun y hy => h y (by simp [hy])

/-- Claim C5: a program name containing a path separator is checked only as a
literal path and returned exactly when it is an executable file; a bare name
is resolved by scanning the PATH directories in order, the first directory
with an executable joined candidate winning even if a later one also matches;
and when no candidate is executable the locator returns no result. -/
theorem which_locator_spec (fs : FS) (program : String) :
    ((ospathSplit program).1 ≠ "" →
      which fs program = (if is_executable fs program then some program else none)) ∧
    ((ospathSplit program).1 = "" →
      (∀ (ds₁ : List String) (d : String) (ds₂ : List String),
          pySplitOn ':' fs.pathVar = ds₁ ++ d :: ds₂ →
          (∀ dd ∈ ds₁, is_executable fs (ospathJoin (stripQuotes dd) program) = false) →
          is_executable fs (ospathJoin (stripQuotes d) program) = true →
          which fs program = some (ospathJoin (stripQuotes d) program)) ∧
      ((∀ dd ∈ pySplitOn ':' fs.pathVar,
          is_executable fs (ospathJoin (stripQuotes dd) program) = false) →
        which fs program = none)) := by
  constructor
  · intro h
    unfold which
    rw [if_pos h]
  · intro h
    have hneg : ¬((ospathSplit program).1 ≠ "") := fun hne => hne h
    constructor
    · intro ds₁ d ds₂ hsplit h1 hd
      unfold which
      rw [if_neg hneg, hsplit]
      exact which_search_first fs program d ds₂ ds₁ h1 hd
    · intro hall
      unfold which
      rw [if_neg hneg]
      exact which_search_none fs program _ hall

/-- Witness for C5: with PATH listing /a before /b and prog executable in
both, the /a candidate wins; and a name containing a separator resolves to
itself when executable. -/
theorem which_locator_spec_witness :
    which fsW "prog" = some "/a/prog" ∧ which fsW "/a/prog" = some "/a/prog" := by
  constructor
  · have h := ((which_locator_spec fsW "prog").2 (by decide)).1 [] "/a" ["/b"]
      (by decide) (by simp) (by decide)
    exact h.trans (by rfl)
  · have h := (which_locator_spec fsW "/a/prog").1 (by decide)
    exact h.trans (by decide)

/-- Claim C6: for a class-category header row carrying Bytes at positions 1
and 3, the mandatory rewrite yields exactly the synthetic keys Bytes_column2
and Bytes_column4 at those positions, leaves every other position unchanged,
both synthetic keys resolve through the class mapping, and the rewrite is a
no-op for every option other than -class. -/
theorem class_rewrite_bytes_columns (titles : List String)
    (h1 : titles.get? 1 = some "Bytes") (h3 : titles.get? 3 = some "Bytes") :
    ∃ t2, class_rewrite "-class" titles = Except.ok t2 ∧
      t2.get? 1 = some "Bytes_column2" ∧
      t2.get? 3 = some "Bytes_column4" ∧
      (∀ i, i ≠ 1 → i ≠ 3 → t2.get? i = titles.get? i) ∧
      metric_maps_class.lookup "Bytes_column2" = some "number_of_kBs_loaded" ∧
      metric_maps_class.lookup "Bytes_column4" = some "number_of_kBs_unloaded" ∧
      (∀ option, option ≠ "-class" → class_rewrite option titles = Except.ok titles) := by
  have hl1 : 1 < titles.length := (List.get?_eq_some.mp h1).1
  have hl3 : 3 < titles.length := (List.get?_eq_some.mp h3).1
  have hl3' : 3 < (titles.set 1 "Bytes_column2").length := by
    rw [List.length_set]; exact hl3
  have e1 : list_setitem titles 1 "Bytes_column2" =
      Except.ok (titles.set 1 "Bytes_column2") := by
    simp [list_setitem, hl1]
  have e2 : list_setitem (titles.set 1 "Bytes_column2") 3 "Bytes_column4" =
      Except.ok ((titles.set 1 "Bytes_column2").set 3 "Bytes_column4") := by
    simp [list_setitem, hl3', hl3]
  refine ⟨(titles.set 1 "Bytes_column2").set 3 "Bytes_column4", ?_, ?_, ?_, ?_, rfl, rfl, ?_⟩
  · simp [class_rewrite, e1, e2]
  · rw [List.get?_set_ne _ _ (by decide)]
    exact List.get?_set_eq_of_lt _ hl1
  · exact List.get?_set_eq_of_lt _ hl3'
  · intro i hi1 hi3
    rw [List.get?_set_ne _ _ (fun hc => hi3 hc.symm),
      List.get?_set_ne _ _ (fun hc => hi1 hc.symm)]
  · intro option hopt
    simp [class_rewrite, hopt]

/-- Witness for C6 at the concrete five-column class header row. -/
theorem class_rewrite_bytes_columns_witness :
    ∃ t2, class_rewrite "-class" ["Loaded", "Bytes", "Unloaded", "Bytes", "Time"] =
        Except.ok t2 ∧
      t2.get? 1 = some "Bytes_column2" ∧
      t2.get? 3 = some "Bytes_column4" ∧
      (∀ i, i ≠ 1 → i ≠ 3 →
        t2.get? i = List.get? ["Loaded", "Bytes", "Unloaded", "Bytes", "Time"] i) ∧
      metric_maps_class.lookup "Bytes_column2" = some "number_of_kBs_loaded" ∧
      metric_maps_class.lookup "Bytes_column4" = some "number_of_kBs_unloaded" ∧
      (∀ option, option ≠ "-class" →
        class_rewrite option ["Loaded", "Bytes", "Unloaded", "Bytes", "Time"] =
          Except.ok ["Loaded", "Bytes", "Unloaded", "Bytes", "Time"]) :=
  class_rewrite_bytes_columns ["Loaded", "Bytes", "Unloaded", "Bytes", "Time"] rfl rfl

/-- Helper: getD agrees with a successful get?. -/
lemma getD_eq_of_get? {α : Type} (l : List α) (n : Nat) (a d : α)
    (h : l.get? n = some a) : l.getD n d = a := by
  simp [List.getD_eq_getElem?_getD, ← List.get?_eq_getElem?, h]

/-- Helper: a successful get? produces a member of the enumeration from any
starting index. -/
lemma mem_enumFrom_of_get? {α : Type} : ∀ (l : List α) (n i : Nat) (a : α),
    l.get? i = some a → (n + i, a) ∈ List.enumFrom n l := by
  intro l
  induction l with
  | nil => intro n i a h; simp at h
  | cons x xs ih =>
    intro n i a h
    cases i with
    | zero =>
      simp at h
      subst h
      simp [List.enumFrom]
    | succ m =>
      have hm := ih (n + 1) m a (by simpa using h)
      have heq : n + (m + 1) = n + 1 + m := by omega
      show (n + (m + 1), a) ∈ (n, x) :: List.enumFrom (n + 1) xs
      rw [heq]
      exact List.mem_cons_of_mem _ hm

/-- Helper: when the values row covers every header position, the title loop
succeeds and each mapped position contributes exactly the token built from
the value at the same position, while each unmapped title is only recorded as
a warning, contributing no token and shifting nothing. -/
lemma map_titles_aligned (mm : List (String × String)) (option : String)
    (values : List String) :
    ∀ (titles : List String) (start : Nat),
      start + titles.length ≤ values.length →
      map_titles mm option values titles start =
        Except.ok
          ((List.enumFrom start titles).filterMap (fun it =>
             (mm.lookup it.2).map (fun long =>
               metric_token option long (values.getD it.1 ""))),
           titles.filter (fun t => mm.lookup t = none)) := by
  intro titles
  induction titles with
  | nil =>
    intro start _
    simp [map_titles, List.enumFrom]
  | cons x xs ih =>
    intro start h
    have hlt : start < values.length := by
      simp only [List.length_cons] at h
      omega
    have hv : values.get? start = some (values.getD start "") := by
      cases hg : values.get? start with
      | none =>
        rw [List.get?_eq_none] at hg
        omega
      | some v =>
        rw [getD_eq_of_get? values start v "" hg]
    have ihh := ih (start + 1) (by simp only [List.length_cons] at h; omega)
    cases hlk : mm.lookup x with
    | some long =>
      simp only [map_titles, hlk, hv, ihh]
      simp [List.enumFrom, hlk]
    | none =>
      simp only [map_titles, hlk, ihh]
      simp [List.enumFrom, hlk]

/-- Claim C7: with the values row covering the header row, an unmapped header
at position p yields no output token and appears in the warning list, while
the loop's full output pairs every mapped position, in particular any q
beyond p, with the value at that same position: the token for the mapped
header at q carries the value at q, so the skip shifts nothing. -/
theorem unmapped_header_skipped_without_shift
    (mm : List (String × String)) (option : String) (values titles : List String)
    (p q : Nat) (tp tq long v : String)
    (hlen : titles.length ≤ values.length)
    (hp : titles.get? p = some tp) (hpu : mm.lookup tp = none)
    (hpq : p < q) (hq : titles.get? q = some tq) (hql : mm.lookup tq = some long)
    (hv : values.get? q = some v) :
    map_titles mm option values titles 0 =
      Except.ok
        ((List.enumFrom 0 titles).filterMap (fun it =>
           (mm.lookup it.2).map (fun lname =>
             metric_token option lname (values.getD it.1 ""))),
         titles.filter (fun t => mm.lookup t = none)) ∧
    tp ∈ titles.filter (fun t => mm.lookup t = none) ∧
    metric_token option long v ∈
      (List.enumFrom 0 titles).filterMap (fun it =>
        (mm.lookup it.2).map (fun lname =>
          metric_token option lname (values.getD it.1 ""))) := by
  refine ⟨map_titles_aligned mm option values titles 0 (by omega), ?_, ?_⟩
  · exact List.mem_filter.mpr ⟨List.get?_mem hp, by simp [hpu]⟩
  · refine List.mem_filterMap.mpr ⟨(q, tq), ?_, ?_⟩
    · have := mem_enumFrom_of_get? titles 0 q tq hq
      simpa using this
    · rw [hql]
      have hvq : values[q]? = some v := by
        rw [← List.get?_eq_getElem?]
        exact hv
      simp [hvq]

/-- Witness for C7: the gc mapping with an unrecognized middle header skips
that column, warns on it, and still pairs the later EC header with the value
at its own position. -/
theorem unmapped_header_skipped_without_shift_witness :
    map_titles metric_maps_gc "-gc" ["1", "2", "3"] ["S0C", "ZZZ", "EC"] 0 =
      Except.ok (["gc_current_survivor_space_0_capacity_kB=1",
                  "gc_current_eden_space_capacity_kB=3"], ["ZZZ"]) ∧
    "ZZZ" ∈ List.filter (fun t => metric_maps_gc.lookup t = none) ["S0C", "ZZZ", "EC"] ∧
    "gc_current_eden_space_capacity_kB=3" ∈
      (["gc_current_survivor_space_0_capacity_kB=1",
        "gc_current_eden_space_capacity_kB=3"] : List String) := by
  have h := unmapped_header_skipped_without_shift metric_maps_gc "-gc" ["1", "2", "3"]
    ["S0C", "ZZZ", "EC"] 1 2 "ZZZ" "EC" "current_eden_space_capacity_kB" "3"
    (by decide) rfl rfl (by decide) rfl rfl rfl
  refine ⟨h.1.trans (by rfl), ?_, ?_⟩
  · simpa using h.2.1
  · simp

/-- Helper: when some header position is mapped but lies beyond the end of
the values row, the title loop raises IndexError. -/
lemma map_titles_overflow (mm : List (String × String)) (option : String)
    (values : List String) :
    ∀ (titles : List String) (start p : Nat) (t : String),
      titles.get? p = some t → (mm.lookup t).isSome = true →
      values.length ≤ start + p →
      map_titles mm option values titles start = Except.error PyError.indexError := by
  intro titles
  induction titles with
  | nil => intro start p t hp _ _; simp at hp
  | cons x xs ih =>
    intro start p t hp hl hlen
    cases p with
    | zero =>
      simp at hp
      subst hp
      have hnone : values[start]? = none := by
        rw [← List.get?_eq_getElem?, List.get?_eq_none]
        omega
      cases hlk : mm.lookup x with
      | none => rw [hlk] at hl; simp at hl
      | some long => simp [map_titles, hlk, hnone]
    | succ m =>
      have hrec := ih (start + 1) m t (by simpa using hp) hl (by omega)
      cases hlk : mm.lookup x with
      | some long =>
        cases hg : values[start]? with
        | none => simp [map_titles, hlk, hg]
        | some w => simp [map_titles, hlk, hg, hrec]
      | none => simp [map_titles, hlk, hrec]

/-- Claim C10: the statistics parser raises IndexError, rather than yielding
a degraded result, whenever the stripped output has fewer than two
newline-separated lines, or when some position of the rewritten header row is
present in the active mapping but lies beyond the end of the values row. -/
theorem parser_raises_on_short_or_misaligned_output
    (mm : List (String × String)) (option : String) (ctx : List String) (stdout : String)
    (h : (pySplitOn '\n' (pyStrip stdout)).length < 2 ∨
         ∃ (titles : List String) (p : Nat) (t : String),
           class_rewrite option
               (pySplitWs ((pySplitOn '\n' (pyStrip stdout)).headD "")) =
             Except.ok titles ∧
           titles.get? p = some t ∧
           (mm.lookup t).isSome = true ∧
           (pySplitWs (((pySplitOn '\n' (pyStrip stdout)).get? 1).getD "")).length ≤ p) :
    parse_jstat_output mm option ctx stdout = Except.error PyError.indexError := by
  cases hg : (pySplitOn '\n' (pyStrip stdout)).get? 1 with
  | none => simp only [parse_jstat_output, hg]
  | some line1 =>
    rcases h with hshort | ⟨titles, p, t, hcr, hp, hl, hlen⟩
    · exfalso
      have hq2 := (List.get?_eq_some.mp hg).1
      omega
    · rw [hg] at hlen
      have hov := map_titles_overflow mm option (pySplitWs line1) titles 0 p t hp hl
        (by simpa using hlen)
      simp only [parse_jstat_output, hg, hcr, hov]

/-- Witness for C10: one-line jstat output raises at the values-row index,
and a two-token gc header over a one-token values row raises at the mapped
second position. -/
theorem parser_raises_witness :
    parse_jstat_output metric_maps_gc "-gc" [] "S0C" = Except.error PyError.indexError ∧
    parse_jstat_output metric_maps_gc "-gc" [] "S0C EC\n1" = Except.error PyError.indexError := by
  constructor
  · exact parser_raises_on_short_or_misaligned_output metric_maps_gc "-gc" [] "S0C"
      (Or.inl (by decide))
  · exact parser_raises_on_short_or_misaligned_output metric_maps_gc "-gc" [] "S0C EC\n1"
      (Or.inr ⟨["S0C", "EC"], 1, "EC", by rfl, rfl, rfl, by decide⟩)

end Jstatmon
